import Mathlib

/-!
The on-disk DAG persistence protocol of ccmash.

A shallow embedding of `ccmash_io_prepare` (src/libccmash/io.c) and of the size
and magic constants of `ccmash.h`, together with theorems about them.

Platform assumptions of the embedding: LP64 (`size_t`, `uint64_t` and
`long int` are 64 bits wide) and a little-endian host. Machine integers are
natural numbers reduced modulo `2 ^ 64` at the places where the C arithmetic
wraps. A file is the list of its bytes; the file system maps a path to the
content of the file stored there.
-/

namespace Ccmash

/-! ## Constants of ccmash.h -/

/-- Header line `#define CCMASH_REVISION 23` -/
def CCMASH_REVISION : Nat := 23

/-- Header line `#define CCMASH_DATASET_BYTES_INIT 1073741824U // 2**30` -/
def CCMASH_DATASET_BYTES_INIT : Nat := 1073741824

/-- Header line `#define CCMASH_DATASET_BYTES_GROWTH 8388608U  // 2**23` -/
def CCMASH_DATASET_BYTES_GROWTH : Nat := 8388608

/-- Header line `#define CCMASH_CACHE_BYTES_INIT 1073741824U // 2**24` -/
def CCMASH_CACHE_BYTES_INIT : Nat := 1073741824

/-- Header line `#define CCMASH_CACHE_BYTES_GROWTH 131072U  // 2**17` -/
def CCMASH_CACHE_BYTES_GROWTH : Nat := 131072

/-- Header line `#define CCMASH_DAG_MAGIC_NUM_SIZE 8` -/
def CCMASH_DAG_MAGIC_NUM_SIZE : Nat := 8

/-- Header line `#define CCMASH_DAG_MAGIC_NUM 0xFEE1DEADBADDCAFE` -/
def CCMASH_DAG_MAGIC_NUM : Nat := 0xFEE1DEADBADDCAFE

/-- The exponent written in the trailing comment of `CCMASH_DATASET_BYTES_INIT`
(`// 2**30`). -/
def DATASET_BYTES_INIT_comment_exp : Nat := 30

/-- The exponent written in the trailing comment of `CCMASH_DATASET_BYTES_GROWTH`
(`// 2**23`). -/
def DATASET_BYTES_GROWTH_comment_exp : Nat := 23

/-- The exponent written in the trailing comment of `CCMASH_CACHE_BYTES_INIT`
(`// 2**24`). -/
def CACHE_BYTES_INIT_comment_exp : Nat := 24

/-- The exponent written in the trailing comment of `CCMASH_CACHE_BYTES_GROWTH`
(`// 2**17`). -/
def CACHE_BYTES_GROWTH_comment_exp : Nat := 17

/-! ## Machine arithmetic -/

/-- Number of values of a 64-bit unsigned integer. -/
def U64_MOD : Nat := 2 ^ 64

/-- Addition of `uint64_t` values, wrapping. -/
def u64_add (a b : Nat) : Nat := (a + b) % U64_MOD

/-- Subtraction of `uint64_t` (or `size_t`) values, wrapping. -/
def u64_sub (a b : Nat) : Nat := (a % U64_MOD + U64_MOD - b % U64_MOD) % U64_MOD

/-- The cast `(long int)u` of a 64-bit unsigned value (two's complement). -/
def to_long (u : Nat) : Int :=
  if u % U64_MOD < 2 ^ 63 then ((u % U64_MOD : Nat) : Int)
  else ((u % U64_MOD : Nat) : Int) - (U64_MOD : Int)

/-- The 8 bytes of `c` that start at offset `pos`, read as one native
(little-endian) `uint64_t`; this is what `fread(&magic_num, 8, 1, f)` stores. -/
def le64 (c : List Nat) (pos : Nat) : Nat :=
  c.getD pos 0 % 256
  + c.getD (pos + 1) 0 % 256 * 256 ^ 1
  + c.getD (pos + 2) 0 % 256 * 256 ^ 2
  + c.getD (pos + 3) 0 % 256 * 256 ^ 3
  + c.getD (pos + 4) 0 % 256 * 256 ^ 4
  + c.getD (pos + 5) 0 % 256 * 256 ^ 5
  + c.getD (pos + 6) 0 % 256 * 256 ^ 6
  + c.getD (pos + 7) 0 % 256 * 256 ^ 7

/-- The 8 bytes that `fwrite(&v, 8, 1, f)` emits for a native (little-endian)
`uint64_t` value `v`. -/
def u64_bytes (v : Nat) : List Nat :=
  [v % 256, v / 256 ^ 1 % 256, v / 256 ^ 2 % 256, v / 256 ^ 3 % 256,
   v / 256 ^ 4 % 256, v / 256 ^ 5 % 256, v / 256 ^ 6 % 256, v / 256 ^ 7 % 256]

/-! ## Outcome codes, streams and the file system -/

/-- Modelled from the spec: `enum ccmash_io_rc` is declared in io.h, which is not
among the sources; the four outcomes are the ones `ccmash_io_prepare` assigns. -/
inductive ccmash_io_rc where
  | CCMASH_IO_FAIL
  | CCMASH_IO_MEMO_SIZE_MISMATCH
  | CCMASH_IO_MEMO_MISMATCH
  | CCMASH_IO_MEMO_MATCH
  deriving DecidableEq

open ccmash_io_rc

/-- The two `fopen` modes used by `ccmash_io_prepare`: `"rb+"` and `"wb+"`. -/
inductive Mode where
  | rb_plus
  | wb_plus
  deriving DecidableEq

/-- Both modes are update modes: the stream may be read and written. -/
def Mode.writable : Mode → Bool
  | Mode.rb_plus => true
  | Mode.wb_plus => true

/-- A stdio stream (`FILE*`): the path it was opened on, its mode, its file
position and whether it is still open. -/
structure FILE where
  path : String
  mode : Mode
  pos : Nat
  is_open : Bool
  deriving DecidableEq

/-- The file system: the content of the file at each path (`none` when there is
no such file) and the number of stdio streams currently open. -/
structure Disk where
  files : String → Option (List Nat)
  nopen : Nat

/-- The messages `ccmash_io_prepare` passes to `CCMASH_CRITICAL`, one per
failure branch. -/
inductive Critical where
  | could_not_create_directory
  | could_not_create_pathname
  | could_not_query_size
  | could_not_read
  | could_not_create_file
  | could_not_seek
  | could_not_write
  | could_not_flush
  deriving DecidableEq

/-- Modelled from the spec: `ccmash_io_mutable_name` (io.h) and
`ccmash_io_create_filename` (io_posix.c) are not among the sources; the spec
only fixes that the file name is a deterministic function of the protocol
revision and the seed hash. `ccmash_io_mutable_name rev seed` is the file name
and `ccmash_io_create_filename dir name` the path of that name inside `dir`. -/
structure Naming where
  ccmash_io_mutable_name : Nat → List Nat → String
  ccmash_io_create_filename : String → String → String

/-- Modelled from the spec: `ccmash_mkdir` (io_posix.c) is not among the
sources, and the C library may refuse any request; the environment fixes what
each of them answers during one call. `ccmash_mkdir dir` tells whether the
directory exists or could be created, `malloc_ok` whether the buffer of the
path name can be allocated, and the remaining fields whether the corresponding
library call is allowed to succeed. -/
structure Env where
  ccmash_mkdir : String → Bool
  malloc_ok : Bool
  fopen_ok : String → Mode → Bool
  fstat_ok : Bool
  fread_ok : Bool
  fseek_ok : Bool
  fputc_ok : Bool
  fflush_ok : Bool

/-- The path `tmpfile` that `ccmash_io_prepare` builds for a directory and a
seed hash (lines 45 and 46). -/
def dag_path (n : Naming) (dirname : String) (seedhash : List Nat) : String :=
  n.ccmash_io_create_filename dirname (n.ccmash_io_mutable_name CCMASH_REVISION seedhash)

/-- Replace the content stored at `path`. -/
def Disk.store (d : Disk) (path : String) (c : List Nat) : Disk :=
  { d with files := fun p => if p = path then some c else d.files p }

/-- Modelled from the spec: `ccmash_fopen` (io_posix.c, not among the sources)
forwards to `fopen`. `"rb+"` opens an existing file at position 0 and fails
when there is none; `"wb+"` creates the file or truncates it to length 0. -/
def ccmash_fopen (e : Env) (d : Disk) (path : String) (mode : Mode) : Option FILE × Disk :=
  if e.fopen_ok path mode then
    match mode with
    | Mode.rb_plus =>
      match d.files path with
      | some _ => (some ⟨path, mode, 0, true⟩, { d with nopen := d.nopen + 1 })
      | none => (none, d)
    | Mode.wb_plus =>
      (some ⟨path, mode, 0, true⟩, { d.store path [] with nopen := d.nopen + 1 })
  else (none, d)

/-- The call `fclose(f)`: one open stream less. -/
def fclose (d : Disk) (_f : FILE) : Disk :=
  { d with nopen := d.nopen - 1 }

/-- Modelled from the spec: `ccmash_file_size` (io_posix.c, not among the
sources) stores the length of the file behind the stream into a `size_t`. -/
def ccmash_file_size (e : Env) (d : Disk) (f : FILE) : Option Nat :=
  if e.fstat_ok then
    match d.files f.path with
    | some c => some (c.length % U64_MOD)
    | none => none
  else none

/-- The call `fread(&x, 8, 1, f)`: one 8-byte item; it is read only when 8 bytes are
available from the file position on. -/
def fread_u64 (e : Env) (d : Disk) (f : FILE) : Option Nat × FILE :=
  match d.files f.path with
  | some c =>
    if e.fread_ok ∧ f.pos + 8 ≤ c.length then
      (some (le64 c f.pos), { f with pos := f.pos + 8 })
    else (none, f)
  | none => (none, f)

/-- The call `fseek(f, offset, SEEK_SET)`: refuses a negative offset. -/
def fseek_set (e : Env) (f : FILE) (offset : Int) : Option FILE :=
  if e.fseek_ok ∧ 0 ≤ offset then some { f with pos := offset.toNat } else none

/-- Content after one byte `b` is written at offset `pos`: the gap between
the old length of the file and `pos` reads as zero bytes. -/
def write_at (c : List Nat) (pos : Nat) (b : Nat) : List Nat :=
  if pos < c.length then c.set pos b
  else c ++ List.replicate (pos - c.length) 0 ++ [b]

/-- The call `fputc(ch, f)`: the byte is written at the file position. -/
def fputc (e : Env) (d : Disk) (ch : Nat) (f : FILE) : Option (FILE × Disk) :=
  if e.fputc_ok then
    some ({ f with pos := f.pos + 1 },
          d.store f.path (write_at ((d.files f.path).getD []) f.pos (ch % 256)))
  else none

/-- The test `fflush(f) == 0`. -/
def fflush (e : Env) (_f : FILE) : Bool := e.fflush_ok

/-- The offset handed to `fseek` on line 94:
`(long int)(file_size + CCMASH_DAG_MAGIC_NUM_SIZE - 1)`. -/
def fresh_offset (file_size : Nat) : Int :=
  to_long (u64_sub (u64_add file_size CCMASH_DAG_MAGIC_NUM_SIZE) 1)

/-- What a call of `ccmash_io_prepare` leaves behind: the returned code, the
value of `*output_file`, the file system, and the `CCMASH_CRITICAL` message
logged, if any. -/
structure PrepareResult where
  ret : ccmash_io_rc
  output_file : Option FILE
  disk : Disk
  critical : Option Critical

/-- Lines 87 to 114 of `ccmash_io_prepare`: the file does not exist (or
`force_create` is set) and is created and extended. -/
def prepare_create (e : Env) (d : Disk) (tmpfile : String) (output_file : Option FILE)
    (file_size : Nat) : PrepareResult :=
  match ccmash_fopen e d tmpfile Mode.wb_plus with
  | (none, d1) => ⟨CCMASH_IO_FAIL, output_file, d1, some Critical.could_not_create_file⟩
  | (some f, d1) =>
    match fseek_set e f
        (to_long (u64_sub (u64_add file_size CCMASH_DAG_MAGIC_NUM_SIZE) 1)) with
    | none => ⟨CCMASH_IO_FAIL, output_file, fclose d1 f, some Critical.could_not_seek⟩
    | some f1 =>
      match fputc e d1 10 f1 with
      | none => ⟨CCMASH_IO_FAIL, output_file, fclose d1 f1, some Critical.could_not_write⟩
      | some (f2, d2) =>
        if fflush e f2 then
          ⟨CCMASH_IO_MEMO_MISMATCH, some f2, d2, none⟩
        else
          ⟨CCMASH_IO_FAIL, output_file, fclose d2 f2, some Critical.could_not_flush⟩

/-- The function `ccmash_io_prepare` of io.c. `output_file` is the value
`*output_file` holds before the call. -/
def ccmash_io_prepare (n : Naming) (e : Env) (d : Disk) (dirname : String)
    (seedhash : List Nat) (output_file : Option FILE) (file_size : Nat)
    (force_create : Bool) : PrepareResult :=
  if !e.ccmash_mkdir dirname then
    ⟨CCMASH_IO_FAIL, output_file, d, some Critical.could_not_create_directory⟩
  else
    match (if e.malloc_ok then some (dag_path n dirname seedhash) else none) with
    | none => ⟨CCMASH_IO_FAIL, output_file, d, some Critical.could_not_create_pathname⟩
    | some tmpfile =>
      if !force_create then
        match ccmash_fopen e d tmpfile Mode.rb_plus with
        | (some f, d1) =>
          match ccmash_file_size e d1 f with
          | none =>
            ⟨CCMASH_IO_FAIL, output_file, fclose d1 f, some Critical.could_not_query_size⟩
          | some found_size =>
            if file_size ≠ u64_sub found_size CCMASH_DAG_MAGIC_NUM_SIZE then
              ⟨CCMASH_IO_MEMO_SIZE_MISMATCH, output_file, fclose d1 f, none⟩
            else
              match fread_u64 e d1 f with
              | (none, f1) =>
                ⟨CCMASH_IO_MEMO_SIZE_MISMATCH, output_file, fclose d1 f1,
                  some Critical.could_not_read⟩
              | (some magic_num, f1) =>
                if magic_num ≠ CCMASH_DAG_MAGIC_NUM then
                  ⟨CCMASH_IO_MEMO_SIZE_MISMATCH, output_file, fclose d1 f1, none⟩
                else
                  ⟨CCMASH_IO_MEMO_MATCH, some f1, d1, none⟩
        | (none, d1) => prepare_create e d1 tmpfile output_file file_size
      else prepare_create e d tmpfile output_file file_size

/-- Modelled from the spec: the build step of the caller (`ccmash_full_new`,
internal.c, not among the sources) writes, through the stream it was handed,
the magic constant at offset 0 followed by the dataset bytes. -/
def write_magic_and_dataset (r : PrepareResult) (dataset : List Nat) : Disk :=
  match r.output_file with
  | some f =>
    r.disk.store f.path
      ((u64_bytes CCMASH_DAG_MAGIC_NUM ++ dataset)
        ++ ((r.disk.files f.path).getD []).drop (8 + dataset.length))
  | none => r.disk

/-! ## Concrete environments used to evaluate the model -/

/-- A naming scheme that stores the DAG of every seed hash at `dirname/full`. -/
def naming_full : Naming where
  ccmash_io_mutable_name := fun _ _ => "full"
  ccmash_io_create_filename := fun dir name => dir ++ "/" ++ name

/-- An environment in which every request succeeds. -/
def env_ok : Env where
  ccmash_mkdir := fun _ => true
  malloc_ok := true
  fopen_ok := fun _ _ => true
  fstat_ok := true
  fread_ok := true
  fseek_ok := true
  fputc_ok := true
  fflush_ok := true

/-- The environment `env_ok`, except that the directory cannot be created. -/
def env_no_dir : Env := { env_ok with ccmash_mkdir := fun _ => false }

/-- The environment `env_ok`, except that `fread` fails. -/
def env_no_read : Env := { env_ok with fread_ok := false }

/-- The environment `env_ok`, except that the size of a file cannot be
queried. -/
def env_no_stat : Env := { env_ok with fstat_ok := false }

/-- The environment `env_ok`, except that no file can be created (`"wb+"` is
refused). -/
def env_no_create : Env :=
  { env_ok with fopen_ok := fun _ m => decide (m = Mode.rb_plus) }

/-- The environment `env_ok`, except that `fseek` fails. -/
def env_no_seek : Env := { env_ok with fseek_ok := false }

/-- The environment `env_ok`, except that `fputc` fails. -/
def env_no_putc : Env := { env_ok with fputc_ok := false }

/-- The environment `env_ok`, except that `fflush` fails. -/
def env_no_flush : Env := { env_ok with fflush_ok := false }

/-- The empty file system. -/
def disk_empty : Disk := ⟨fun _ => none, 0⟩

/-- A file system holding one file, at `dag/full`. -/
def disk_with (c : List Nat) : Disk := disk_empty.store "dag/full" c

/-- A well-formed DAG file for content size `k`: the magic constant followed by
`k` content bytes. -/
def magic_file (k : Nat) : List Nat :=
  u64_bytes CCMASH_DAG_MAGIC_NUM ++ List.replicate k 7

/-! ## Structural lemmas -/

theorem prepare_mkdir_fails (n : Naming) (e : Env) (d : Disk) (dirname : String)
    (seedhash : List Nat) (out : Option FILE) (file_size : Nat) (force_create : Bool)
    (h : e.ccmash_mkdir dirname = false) :
    ccmash_io_prepare n e d dirname seedhash out file_size force_create
      = ⟨CCMASH_IO_FAIL, out, d, some Critical.could_not_create_directory⟩ := by
  simp [ccmash_io_prepare, h]

theorem prepare_malloc_fails (n : Naming) (e : Env) (d : Disk) (dirname : String)
    (seedhash : List Nat) (out : Option FILE) (file_size : Nat) (force_create : Bool)
    (hdir : e.ccmash_mkdir dirname = true) (h : e.malloc_ok = false) :
    ccmash_io_prepare n e d dirname seedhash out file_size force_create
      = ⟨CCMASH_IO_FAIL, out, d, some Critical.could_not_create_pathname⟩ := by
  simp [ccmash_io_prepare, hdir, h]

theorem prepare_falls_through (n : Naming) (e : Env) (d : Disk) (dirname : String)
    (seedhash : List Nat) (out : Option FILE) (file_size : Nat) (force_create : Bool)
    (hdir : e.ccmash_mkdir dirname = true) (hmem : e.malloc_ok = true)
    (h : force_create = true ∨ e.fopen_ok (dag_path n dirname seedhash) Mode.rb_plus = false ∨
      d.files (dag_path n dirname seedhash) = none) :
    ccmash_io_prepare n e d dirname seedhash out file_size force_create
      = prepare_create e d (dag_path n dirname seedhash) out file_size := by
  cases force_create
  · rcases h with h | h | h
    · simp at h
    · simp [ccmash_io_prepare, hdir, hmem, ccmash_fopen, h]
    · simp [ccmash_io_prepare, hdir, hmem, ccmash_fopen, h]
  · simp [ccmash_io_prepare, hdir, hmem]

theorem prepare_stat_fails (n : Naming) (e : Env) (d : Disk) (dirname : String)
    (seedhash : List Nat) (out : Option FILE) (file_size : Nat) (c : List Nat)
    (hdir : e.ccmash_mkdir dirname = true) (hmem : e.malloc_ok = true)
    (hopen : e.fopen_ok (dag_path n dirname seedhash) Mode.rb_plus = true)
    (hfile : d.files (dag_path n dirname seedhash) = some c)
    (hstat : e.fstat_ok = false) :
    ccmash_io_prepare n e d dirname seedhash out file_size false
      = ⟨CCMASH_IO_FAIL, out, { d with nopen := d.nopen + 1 - 1 },
          some Critical.could_not_query_size⟩ := by
  simp [ccmash_io_prepare, hdir, hmem, ccmash_fopen, hopen, hfile, ccmash_file_size, hstat,
    fclose]

theorem prepare_existing (n : Naming) (e : Env) (d : Disk) (dirname : String)
    (seedhash : List Nat) (out : Option FILE) (file_size : Nat) (c : List Nat)
    (hdir : e.ccmash_mkdir dirname = true) (hmem : e.malloc_ok = true)
    (hopen : e.fopen_ok (dag_path n dirname seedhash) Mode.rb_plus = true)
    (hfile : d.files (dag_path n dirname seedhash) = some c)
    (hstat : e.fstat_ok = true) :
    ccmash_io_prepare n e d dirname seedhash out file_size false
      = if file_size = u64_sub (c.length % U64_MOD) CCMASH_DAG_MAGIC_NUM_SIZE then
          if e.fread_ok = true ∧ 8 ≤ c.length then
            if le64 c 0 = CCMASH_DAG_MAGIC_NUM then
              ⟨CCMASH_IO_MEMO_MATCH, some ⟨dag_path n dirname seedhash, Mode.rb_plus, 8, true⟩,
                { d with nopen := d.nopen + 1 }, none⟩
            else
              ⟨CCMASH_IO_MEMO_SIZE_MISMATCH, out, { d with nopen := d.nopen + 1 - 1 }, none⟩
          else
            ⟨CCMASH_IO_MEMO_SIZE_MISMATCH, out, { d with nopen := d.nopen + 1 - 1 },
              some Critical.could_not_read⟩
        else
          ⟨CCMASH_IO_MEMO_SIZE_MISMATCH, out, { d with nopen := d.nopen + 1 - 1 }, none⟩ := by
  by_cases h1 : file_size = u64_sub (c.length % U64_MOD) CCMASH_DAG_MAGIC_NUM_SIZE
  · by_cases h2 : e.fread_ok = true ∧ 8 ≤ c.length
    · by_cases h3 : le64 c 0 = CCMASH_DAG_MAGIC_NUM
      · simp [ccmash_io_prepare, hdir, hmem, ccmash_fopen, hopen, hfile, ccmash_file_size,
          hstat, fclose, fread_u64, ← h1, h2, h3]
      · simp [ccmash_io_prepare, hdir, hmem, ccmash_fopen, hopen, hfile, ccmash_file_size,
          hstat, fclose, fread_u64, ← h1, h2, h3]
    · simp [ccmash_io_prepare, hdir, hmem, ccmash_fopen, hopen, hfile, ccmash_file_size,
        hstat, fclose, fread_u64, ← h1, h2]
  · simp [ccmash_io_prepare, hdir, hmem, ccmash_fopen, hopen, hfile, ccmash_file_size,
      hstat, fclose, h1]

theorem store_files_self (d : Disk) (p : String) (c : List Nat) :
    (d.store p c).files p = some c := by
  unfold Disk.store
  exact if_pos rfl

theorem store_files_other (d : Disk) (p q : String) (c : List Nat) (h : q ≠ p) :
    (d.store p c).files q = d.files q := by
  unfold Disk.store
  exact if_neg h

theorem write_at_nil (k b : Nat) : write_at [] k b = List.replicate k 0 ++ [b] := by
  unfold write_at
  simp only [List.length_nil, Nat.not_lt_zero, if_false, Nat.sub_zero, List.nil_append]

theorem prepare_create_fresh (e : Env) (d : Disk) (tmpfile : String) (out : Option FILE)
    (file_size : Nat)
    (hcreate : e.fopen_ok tmpfile Mode.wb_plus = true) (hseek : e.fseek_ok = true)
    (hoff : 0 ≤ fresh_offset file_size)
    (hputc : e.fputc_ok = true) (hflush : e.fflush_ok = true) :
    prepare_create e d tmpfile out file_size
      = ⟨CCMASH_IO_MEMO_MISMATCH,
          some ⟨tmpfile, Mode.wb_plus, (fresh_offset file_size).toNat + 1, true⟩,
          ({ d.store tmpfile [] with nopen := d.nopen + 1 }).store tmpfile
            (List.replicate (fresh_offset file_size).toNat 0 ++ [10]),
          none⟩ := by
  unfold fresh_offset at hoff ⊢
  unfold prepare_create
  generalize to_long (u64_sub (u64_add file_size CCMASH_DAG_MAGIC_NUM_SIZE) 1) = off at hoff ⊢
  simp only [ccmash_fopen, hcreate, fseek_set, hseek, hoff, and_self, if_true]
  unfold fputc
  rw [if_pos hputc]
  dsimp only
  unfold fflush
  rw [if_pos hflush]
  rw [store_files_self, Option.getD_some, write_at_nil]



theorem prepare_create_fail_or_fresh (e : Env) (d : Disk) (tmpfile : String)
    (out : Option FILE) (file_size : Nat) :
    ((prepare_create e d tmpfile out file_size).ret = CCMASH_IO_FAIL ∧
      (prepare_create e d tmpfile out file_size).output_file = out ∧
      ((prepare_create e d tmpfile out file_size).critical
          = some Critical.could_not_create_file ∨
        (prepare_create e d tmpfile out file_size).critical = some Critical.could_not_seek ∨
        (prepare_create e d tmpfile out file_size).critical = some Critical.could_not_write ∨
        (prepare_create e d tmpfile out file_size).critical = some Critical.could_not_flush))
    ∨ (0 ≤ fresh_offset file_size ∧
        prepare_create e d tmpfile out file_size
          = ⟨CCMASH_IO_MEMO_MISMATCH,
              some ⟨tmpfile, Mode.wb_plus, (fresh_offset file_size).toNat + 1, true⟩,
              ({ d.store tmpfile [] with nopen := d.nopen + 1 }).store tmpfile
                (List.replicate (fresh_offset file_size).toNat 0 ++ [10]),
              none⟩) := by
  by_cases hcreate : e.fopen_ok tmpfile Mode.wb_plus = true
  · by_cases hseek : e.fseek_ok = true ∧ 0 ≤ fresh_offset file_size
    · by_cases hputc : e.fputc_ok = true
      · by_cases hflush : e.fflush_ok = true
        · exact Or.inr ⟨hseek.2, prepare_create_fresh e d tmpfile out file_size hcreate hseek.1
            hseek.2 hputc hflush⟩
        · left
          unfold fresh_offset at hseek
          unfold prepare_create ccmash_fopen
          rw [if_pos hcreate]
          dsimp only
          unfold fseek_set
          rw [if_pos hseek]
          dsimp only
          unfold fputc
          rw [if_pos hputc]
          dsimp only
          unfold fflush
          rw [if_neg hflush]
          exact ⟨rfl, rfl, Or.inr (Or.inr (Or.inr rfl))⟩
      · left
        unfold fresh_offset at hseek
        unfold prepare_create ccmash_fopen
        rw [if_pos hcreate]
        dsimp only
        unfold fseek_set
        rw [if_pos hseek]
        dsimp only
        unfold fputc
        rw [if_neg hputc]
        exact ⟨rfl, rfl, Or.inr (Or.inr (Or.inl rfl))⟩
    · left
      unfold fresh_offset at hseek
      unfold prepare_create ccmash_fopen
      rw [if_pos hcreate]
      dsimp only
      unfold fseek_set
      rw [if_neg hseek]
      exact ⟨rfl, rfl, Or.inr (Or.inl rfl)⟩
  · left
    unfold prepare_create ccmash_fopen
    rw [if_neg hcreate]
    exact ⟨rfl, rfl, Or.inl rfl⟩

theorem fresh_offset_small (file_size : Nat) (h : file_size + 8 ≤ 2 ^ 63) :
    fresh_offset file_size = ((file_size + 7 : Nat) : Int) := by
  unfold fresh_offset to_long u64_sub u64_add U64_MOD CCMASH_DAG_MAGIC_NUM_SIZE
  split <;> omega

theorem fresh_offset_toNat (file_size : Nat) (h0 : 0 ≤ fresh_offset file_size) :
    (fresh_offset file_size).toNat = (file_size + 7) % 2 ^ 64 := by
  unfold fresh_offset to_long u64_sub u64_add U64_MOD CCMASH_DAG_MAGIC_NUM_SIZE at *
  split at h0 <;> split <;> omega

theorem u64_sub_eight_eq (len file_size : Nat) (hn : len < 2 ^ 64)
    (hs : file_size < 2 ^ 64) (h8 : 8 ≤ len) :
    file_size = u64_sub (len % U64_MOD) CCMASH_DAG_MAGIC_NUM_SIZE ↔ len = file_size + 8 := by
  unfold u64_sub U64_MOD CCMASH_DAG_MAGIC_NUM_SIZE
  omega

theorem u64_sub_eight_ne (len file_size : Nat) (hn : len < 2 ^ 64)
    (h : len ≠ file_size + 8) (h8 : 8 ≤ len) :
    file_size ≠ u64_sub (len % U64_MOD) CCMASH_DAG_MAGIC_NUM_SIZE := by
  unfold u64_sub U64_MOD CCMASH_DAG_MAGIC_NUM_SIZE
  omega

theorem le64_mod_256 (c : List Nat) : le64 c 0 % 256 = c.getD 0 0 % 256 := by
  unfold le64
  omega


theorem rc_fail_ne_match : CCMASH_IO_FAIL ≠ CCMASH_IO_MEMO_MATCH := by decide

theorem rc_fail_ne_size : CCMASH_IO_FAIL ≠ CCMASH_IO_MEMO_SIZE_MISMATCH := by decide

theorem rc_fail_ne_mismatch : CCMASH_IO_FAIL ≠ CCMASH_IO_MEMO_MISMATCH := by decide

theorem rc_mismatch_ne_match : CCMASH_IO_MEMO_MISMATCH ≠ CCMASH_IO_MEMO_MATCH := by decide

theorem rc_mismatch_ne_size : CCMASH_IO_MEMO_MISMATCH ≠ CCMASH_IO_MEMO_SIZE_MISMATCH := by
  decide

theorem rc_size_ne_match : CCMASH_IO_MEMO_SIZE_MISMATCH ≠ CCMASH_IO_MEMO_MATCH := by decide

theorem rc_size_ne_fail : CCMASH_IO_MEMO_SIZE_MISMATCH ≠ CCMASH_IO_FAIL := by decide

theorem rc_match_ne_fail : CCMASH_IO_MEMO_MATCH ≠ CCMASH_IO_FAIL := by decide

theorem prepare_create_ne_match (e : Env) (d : Disk) (tmpfile : String) (out : Option FILE)
    (file_size : Nat) :
    (prepare_create e d tmpfile out file_size).ret ≠ CCMASH_IO_MEMO_MATCH ∧
    (prepare_create e d tmpfile out file_size).ret ≠ CCMASH_IO_MEMO_SIZE_MISMATCH := by
  rcases prepare_create_fail_or_fresh e d tmpfile out file_size with h | h
  · rw [h.1]
    exact ⟨rc_fail_ne_match, rc_fail_ne_size⟩
  · rw [h.2]
    exact ⟨rc_mismatch_ne_match, rc_mismatch_ne_size⟩

/-- The shape of every call that reaches line 52: either it falls through to the
creation of a new file, or it opened an existing file. -/
theorem prepare_cases (n : Naming) (e : Env) (d : Disk) (dirname : String)
    (seedhash : List Nat) (out : Option FILE) (file_size : Nat) (force_create : Bool)
    (hdir : e.ccmash_mkdir dirname = true) (hmem : e.malloc_ok = true) :
    ((force_create = true ∨ e.fopen_ok (dag_path n dirname seedhash) Mode.rb_plus = false ∨
        d.files (dag_path n dirname seedhash) = none) ∧
      ccmash_io_prepare n e d dirname seedhash out file_size force_create
        = prepare_create e d (dag_path n dirname seedhash) out file_size) ∨
    (force_create = false ∧ e.fopen_ok (dag_path n dirname seedhash) Mode.rb_plus = true ∧
      ∃ c, d.files (dag_path n dirname seedhash) = some c) := by
  cases force_create
  · by_cases hopen : e.fopen_ok (dag_path n dirname seedhash) Mode.rb_plus = true
    · cases hfile : d.files (dag_path n dirname seedhash) with
      | none =>
        exact Or.inl ⟨Or.inr (Or.inr rfl), prepare_falls_through n e d dirname seedhash out
          file_size false hdir hmem (Or.inr (Or.inr hfile))⟩
      | some c => exact Or.inr ⟨rfl, hopen, c, rfl⟩
    · have hopen2 : e.fopen_ok (dag_path n dirname seedhash) Mode.rb_plus = false := by
        cases h : e.fopen_ok (dag_path n dirname seedhash) Mode.rb_plus
        · rfl
        · exact absurd h hopen
      exact Or.inl ⟨Or.inr (Or.inl hopen2), prepare_falls_through n e d dirname seedhash out
        file_size false hdir hmem (Or.inr (Or.inl hopen2))⟩
  · exact Or.inl ⟨Or.inl rfl, prepare_falls_through n e d dirname seedhash out
      file_size true hdir hmem (Or.inl rfl)⟩

/-- C1. Provided the call reaches the lookup (the directory is there and the path
name could be built) and the existing file, if any, has a length a `size_t`
can hold, `ccmash_io_prepare` returns `CCMASH_IO_MEMO_MATCH` if and only if
`force_create` is false, the file exists and can be opened, its size can be
queried, its size is exactly `file_size + 8`, and its leading 8 bytes are read
and equal the magic constant; then `*output_file` is the stream opened on that
file and the files on disk are unchanged. -/
theorem C1_match_iff (n : Naming) (e : Env) (d : Disk) (dirname : String)
    (seedhash : List Nat) (out : Option FILE) (file_size : Nat) (force_create : Bool)
    (hsz : file_size < 2 ^ 64)
    (hdir : e.ccmash_mkdir dirname = true) (hmem : e.malloc_ok = true)
    (hlen : ∀ c, d.files (dag_path n dirname seedhash) = some c → c.length < 2 ^ 64) :
    ((ccmash_io_prepare n e d dirname seedhash out file_size force_create).ret
        = CCMASH_IO_MEMO_MATCH ↔
      (force_create = false ∧ e.fopen_ok (dag_path n dirname seedhash) Mode.rb_plus = true ∧
        e.fstat_ok = true ∧ e.fread_ok = true ∧
        ∃ c, d.files (dag_path n dirname seedhash) = some c ∧ c.length = file_size + 8 ∧
          le64 c 0 = CCMASH_DAG_MAGIC_NUM)) ∧
    ((ccmash_io_prepare n e d dirname seedhash out file_size force_create).ret
        = CCMASH_IO_MEMO_MATCH →
      (ccmash_io_prepare n e d dirname seedhash out file_size force_create).output_file
        = some ⟨dag_path n dirname seedhash, Mode.rb_plus, 8, true⟩ ∧
      (ccmash_io_prepare n e d dirname seedhash out file_size force_create).disk.files
        = d.files) := by
  rcases prepare_cases n e d dirname seedhash out file_size force_create hdir hmem with
    ⟨hft, heq⟩ | ⟨hforce, hopen, c, hfile⟩
  · rw [heq]
    have hne := (prepare_create_ne_match e d (dag_path n dirname seedhash) out file_size).1
    refine ⟨⟨fun h => absurd h hne, ?_⟩, fun h => absurd h hne⟩
    rintro ⟨h1, h2, -, -, c, h3, -⟩
    rcases hft with h | h | h
    · rw [h1] at h
      exact absurd h (by decide)
    · rw [h2] at h
      exact absurd h (by decide)
    · rw [h3] at h
      exact absurd h (by simp)
  · subst hforce
    have hl := hlen c hfile
    have huniq : ∀ c2, d.files (dag_path n dirname seedhash) = some c2 → c2 = c := by
      intro c2 hc2
      rw [hfile] at hc2
      exact (Option.some.inj hc2).symm
    cases hstat : e.fstat_ok
    · rw [prepare_stat_fails n e d dirname seedhash out file_size c hdir hmem hopen hfile hstat]
      refine ⟨⟨fun h => absurd h rc_fail_ne_match, ?_⟩, fun h => absurd h rc_fail_ne_match⟩
      rintro ⟨-, -, h, -⟩
      exact absurd h (by decide)
    · rw [prepare_existing n e d dirname seedhash out file_size c hdir hmem hopen hfile hstat]
      by_cases h1 : file_size = u64_sub (c.length % U64_MOD) CCMASH_DAG_MAGIC_NUM_SIZE
      · rw [if_pos h1]
        by_cases h2 : e.fread_ok = true ∧ 8 ≤ c.length
        · rw [if_pos h2]
          have hlen8 := (u64_sub_eight_eq c.length file_size hl hsz h2.2).1 h1
          by_cases h3 : le64 c 0 = CCMASH_DAG_MAGIC_NUM
          · rw [if_pos h3]
            exact ⟨⟨fun _ => ⟨rfl, hopen, rfl, h2.1, c, hfile, hlen8, h3⟩, fun _ => rfl⟩,
              fun _ => ⟨rfl, rfl⟩⟩
          · rw [if_neg h3]
            refine ⟨⟨fun h => absurd h rc_size_ne_match, ?_⟩, fun h => absurd h rc_size_ne_match⟩
            rintro ⟨-, -, -, -, c2, hc2, -, hm⟩
            rw [huniq c2 hc2] at hm
            exact absurd hm h3
        · rw [if_neg h2]
          refine ⟨⟨fun h => absurd h rc_size_ne_match, ?_⟩, fun h => absurd h rc_size_ne_match⟩
          rintro ⟨-, -, -, hr, c2, hc2, hl2, -⟩
          rw [huniq c2 hc2] at hl2
          exact absurd ⟨hr, by omega⟩ h2
      · rw [if_neg h1]
        refine ⟨⟨fun h => absurd h rc_size_ne_match, ?_⟩, fun h => absurd h rc_size_ne_match⟩
        rintro ⟨-, -, -, -, c2, hc2, hl2, -⟩
        rw [huniq c2 hc2] at hl2
        exact absurd ((u64_sub_eight_eq c.length file_size hl hsz (by omega)).2 hl2) h1


theorem bool_eq_false_of_ne_true (b : Bool) (h : ¬ b = true) : b = false := by
  cases b
  · rfl
  · exact absurd rfl h

/-- Every call of `ccmash_io_prepare` ends in one of four ways: failure, an
unusable existing file, a freshly created file, or a reusable file. -/
theorem prepare_outcomes (n : Naming) (e : Env) (d : Disk) (dirname : String)
    (seedhash : List Nat) (out : Option FILE) (file_size : Nat) (force_create : Bool) :
    ((ccmash_io_prepare n e d dirname seedhash out file_size force_create).ret
          = CCMASH_IO_FAIL ∧
        (ccmash_io_prepare n e d dirname seedhash out file_size force_create).output_file
          = out ∧
        ∃ k, (ccmash_io_prepare n e d dirname seedhash out file_size force_create).critical
          = some k ∧ k ≠ Critical.could_not_read) ∨
    ((ccmash_io_prepare n e d dirname seedhash out file_size force_create).ret
          = CCMASH_IO_MEMO_SIZE_MISMATCH ∧
        (ccmash_io_prepare n e d dirname seedhash out file_size force_create).output_file
          = out ∧
        (ccmash_io_prepare n e d dirname seedhash out file_size force_create).disk
          = { d with nopen := d.nopen + 1 - 1 } ∧
        ((ccmash_io_prepare n e d dirname seedhash out file_size force_create).critical
            = none ∨
          (ccmash_io_prepare n e d dirname seedhash out file_size force_create).critical
            = some Critical.could_not_read)) ∨
    (0 ≤ fresh_offset file_size ∧
        ccmash_io_prepare n e d dirname seedhash out file_size force_create
          = ⟨CCMASH_IO_MEMO_MISMATCH,
              some ⟨dag_path n dirname seedhash, Mode.wb_plus,
                (fresh_offset file_size).toNat + 1, true⟩,
              ({ d.store (dag_path n dirname seedhash) [] with nopen := d.nopen + 1 }).store
                (dag_path n dirname seedhash)
                (List.replicate (fresh_offset file_size).toNat 0 ++ [10]),
              none⟩) ∨
    (force_create = false ∧
        (∃ c, d.files (dag_path n dirname seedhash) = some c ∧ 8 ≤ c.length ∧
          le64 c 0 = CCMASH_DAG_MAGIC_NUM ∧
          file_size = u64_sub (c.length % U64_MOD) CCMASH_DAG_MAGIC_NUM_SIZE) ∧
        ccmash_io_prepare n e d dirname seedhash out file_size force_create
          = ⟨CCMASH_IO_MEMO_MATCH, some ⟨dag_path n dirname seedhash, Mode.rb_plus, 8, true⟩,
              { d with nopen := d.nopen + 1 }, none⟩) := by
  by_cases hdir : e.ccmash_mkdir dirname = true
  · by_cases hmem : e.malloc_ok = true
    · rcases prepare_cases n e d dirname seedhash out file_size force_create hdir hmem with
        ⟨-, heq⟩ | ⟨hforce, hopen, c, hfile⟩
      · rw [heq]
        rcases prepare_create_fail_or_fresh e d (dag_path n dirname seedhash) out file_size
          with ⟨h1, h2, h3⟩ | h
        · refine Or.inl ⟨h1, h2, ?_⟩
          rcases h3 with h | h | h | h
          · exact ⟨_, h, by decide⟩
          · exact ⟨_, h, by decide⟩
          · exact ⟨_, h, by decide⟩
          · exact ⟨_, h, by decide⟩
        · exact Or.inr (Or.inr (Or.inl h))
      · subst hforce
        cases hstat : e.fstat_ok
        · rw [prepare_stat_fails n e d dirname seedhash out file_size c hdir hmem hopen hfile
            hstat]
          exact Or.inl ⟨rfl, rfl, _, rfl, by decide⟩
        · rw [prepare_existing n e d dirname seedhash out file_size c hdir hmem hopen hfile
            hstat]
          by_cases h1 : file_size = u64_sub (c.length % U64_MOD) CCMASH_DAG_MAGIC_NUM_SIZE
          · rw [if_pos h1]
            by_cases h2 : e.fread_ok = true ∧ 8 ≤ c.length
            · rw [if_pos h2]
              by_cases h3 : le64 c 0 = CCMASH_DAG_MAGIC_NUM
              · rw [if_pos h3]
                exact Or.inr (Or.inr (Or.inr ⟨rfl, ⟨c, hfile, h2.2, h3, h1⟩, rfl⟩))
              · rw [if_neg h3]
                exact Or.inr (Or.inl ⟨rfl, rfl, rfl, Or.inl rfl⟩)
            · rw [if_neg h2]
              exact Or.inr (Or.inl ⟨rfl, rfl, rfl, Or.inr rfl⟩)
          · rw [if_neg h1]
            exact Or.inr (Or.inl ⟨rfl, rfl, rfl, Or.inl rfl⟩)
    · rw [prepare_malloc_fails n e d dirname seedhash out file_size force_create hdir
        (bool_eq_false_of_ne_true _ hmem)]
      exact Or.inl ⟨rfl, rfl, _, rfl, by decide⟩
  · rw [prepare_mkdir_fails n e d dirname seedhash out file_size force_create
      (bool_eq_false_of_ne_true _ hdir)]
    exact Or.inl ⟨rfl, rfl, _, rfl, by decide⟩

theorem fresh_getD_zero (k : Nat) :
    (List.replicate k 0 ++ [10]).getD 0 0 = 0 ∨ (List.replicate k 0 ++ [10]).getD 0 0 = 10 := by
  cases k with
  | zero => exact Or.inr rfl
  | succ m => exact Or.inl rfl

theorem magic_mod_256 : CCMASH_DAG_MAGIC_NUM % 256 = 254 := by decide

theorem le64_fresh_ne_magic (c : List Nat) (h : c.getD 0 0 = 0 ∨ c.getD 0 0 = 10) :
    le64 c 0 ≠ CCMASH_DAG_MAGIC_NUM := by
  intro hm
  have h1 := le64_mod_256 c
  rw [hm, magic_mod_256] at h1
  rcases h with h | h <;> rw [h] at h1 <;> omega

theorem u64_bytes_magic :
    u64_bytes CCMASH_DAG_MAGIC_NUM = [254, 202, 221, 186, 173, 222, 225, 254] := by
  decide

theorem le64_magic_append (rest : List Nat) :
    le64 (u64_bytes CCMASH_DAG_MAGIC_NUM ++ rest) 0 = CCMASH_DAG_MAGIC_NUM := by
  rw [u64_bytes_magic]
  unfold le64
  simp only [List.cons_append, List.getD_cons_zero, List.getD_cons_succ, Nat.zero_add]
  decide

theorem dag_path_full : dag_path naming_full "dag" [] = "dag/full" := by decide

theorem disk_with_files (c : List Nat) : (disk_with c).files "dag/full" = some c := by
  unfold disk_with
  exact store_files_self disk_empty "dag/full" c

/-- C1 evaluated on a well-formed DAG file of content size 3: the call reports
the reusable match. -/
theorem C1_match_iff_witness :
    (ccmash_io_prepare naming_full env_ok (disk_with (magic_file 3)) "dag" [] none 3 false).ret
      = CCMASH_IO_MEMO_MATCH :=
  (C1_match_iff naming_full env_ok (disk_with (magic_file 3)) "dag" [] none 3 false
    (by decide) rfl rfl
    (fun c h => by
      rw [dag_path_full, disk_with_files] at h
      rw [← Option.some.inj h]
      decide)).1.2
    ⟨rfl, rfl, rfl, rfl, magic_file 3, by rw [dag_path_full, disk_with_files], by decide,
      by decide⟩

/-- C2. On a non-forced call that opened an existing file and queried its size
(a size a `size_t` can hold): whenever the size of the file is not
`file_size + 8`, or its leading 8 bytes are not the magic constant, the call
returns `CCMASH_IO_MEMO_SIZE_MISMATCH`, the same code in both cases, and none of
the three other codes; in particular a file of size `S + 8` is reported
unusable when it is queried with `S + 1`. -/
theorem C2_unusable (n : Naming) (e : Env) (d : Disk) (dirname : String)
    (seedhash : List Nat) (out : Option FILE) (c : List Nat)
    (hdir : e.ccmash_mkdir dirname = true) (hmem : e.malloc_ok = true)
    (hopen : e.fopen_ok (dag_path n dirname seedhash) Mode.rb_plus = true)
    (hfile : d.files (dag_path n dirname seedhash) = some c)
    (hstat : e.fstat_ok = true)
    (hlen : c.length < 2 ^ 64) :
    (∀ file_size, file_size < 2 ^ 64 →
      (c.length ≠ file_size + 8 ∨ le64 c 0 ≠ CCMASH_DAG_MAGIC_NUM) →
      (ccmash_io_prepare n e d dirname seedhash out file_size false).ret
          = CCMASH_IO_MEMO_SIZE_MISMATCH ∧
        (ccmash_io_prepare n e d dirname seedhash out file_size false).ret
          ≠ CCMASH_IO_MEMO_MATCH ∧
        (ccmash_io_prepare n e d dirname seedhash out file_size false).ret
          ≠ CCMASH_IO_MEMO_MISMATCH ∧
        (ccmash_io_prepare n e d dirname seedhash out file_size false).ret
          ≠ CCMASH_IO_FAIL) ∧
    (∀ S, S + 1 < 2 ^ 64 → c.length = S + 8 →
      (ccmash_io_prepare n e d dirname seedhash out (S + 1) false).ret
        = CCMASH_IO_MEMO_SIZE_MISMATCH) := by
  have key : ∀ file_size, file_size < 2 ^ 64 →
      (c.length ≠ file_size + 8 ∨ le64 c 0 ≠ CCMASH_DAG_MAGIC_NUM) →
      (ccmash_io_prepare n e d dirname seedhash out file_size false).ret
          = CCMASH_IO_MEMO_SIZE_MISMATCH := by
    intro file_size hsz hbad
    rw [prepare_existing n e d dirname seedhash out file_size c hdir hmem hopen hfile hstat]
    by_cases h1 : file_size = u64_sub (c.length % U64_MOD) CCMASH_DAG_MAGIC_NUM_SIZE
    · rw [if_pos h1]
      by_cases h2 : e.fread_ok = true ∧ 8 ≤ c.length
      · rw [if_pos h2]
        by_cases h3 : le64 c 0 = CCMASH_DAG_MAGIC_NUM
        · rcases hbad with hb | hb
          · exact absurd ((u64_sub_eight_eq c.length file_size hlen hsz h2.2).1 h1) hb
          · exact absurd h3 hb
        · rw [if_neg h3]
      · rw [if_neg h2]
    · rw [if_neg h1]
  refine ⟨fun file_size hsz hbad => ?_, fun S hS hc => key (S + 1) hS (Or.inl (by omega))⟩
  have hk := key file_size hsz hbad
  rw [hk]
  exact ⟨rfl, rc_size_ne_match, rc_mismatch_ne_size.symm, rc_size_ne_fail⟩

/-- C2 evaluated on a DAG file written for content size 3 and queried with
size 4. -/
theorem C2_unusable_witness :
    (ccmash_io_prepare naming_full env_ok (disk_with (magic_file 3)) "dag" [] none 4 false).ret
      = CCMASH_IO_MEMO_SIZE_MISMATCH :=
  (C2_unusable naming_full env_ok (disk_with (magic_file 3)) "dag" [] none (magic_file 3)
    rfl rfl rfl (by rw [dag_path_full, disk_with_files]) rfl (by decide)).2 3 (by decide)
    (by decide)

/-- C8. When `ccmash_mkdir` fails, `ccmash_io_prepare` returns `CCMASH_IO_FAIL`
whatever the seed hash, `file_size` and `force_create` are, leaves
`*output_file` as it was, and leaves the file system as it was: no file
is opened, created or modified. -/
theorem C8_mkdir_fails (n : Naming) (e : Env) (d : Disk) (dirname : String)
    (seedhash : List Nat) (out : Option FILE) (file_size : Nat) (force_create : Bool)
    (h : e.ccmash_mkdir dirname = false) :
    (ccmash_io_prepare n e d dirname seedhash out file_size force_create).ret = CCMASH_IO_FAIL ∧
    (ccmash_io_prepare n e d dirname seedhash out file_size force_create).output_file = out ∧
    (ccmash_io_prepare n e d dirname seedhash out file_size force_create).disk = d := by
  rw [prepare_mkdir_fails n e d dirname seedhash out file_size force_create h]
  exact ⟨rfl, rfl, rfl⟩

/-- C8 evaluated with a directory that cannot be created, over a reusable DAG
file. -/
theorem C8_mkdir_fails_witness :
    (ccmash_io_prepare naming_full env_no_dir (disk_with (magic_file 3)) "dag" [] none 3
      false).ret = CCMASH_IO_FAIL :=
  (C8_mkdir_fails naming_full env_no_dir (disk_with (magic_file 3)) "dag" [] none 3 false
    rfl).1

/-- C3 as stated fails: in a failure-free environment with no existing file, the
call for `file_size = 2 ^ 64 - 7` creates, seeks, writes and flushes
successfully and returns `CCMASH_IO_MEMO_MISMATCH`, yet the file it leaves has
length 1, not `file_size + 8`. -/
theorem C3_counterexample :
    disk_empty.files (dag_path naming_full "dag" []) = none ∧
    (ccmash_io_prepare naming_full env_ok disk_empty "dag" [] none (2 ^ 64 - 7) false).ret
      = CCMASH_IO_MEMO_MISMATCH ∧
    (ccmash_io_prepare naming_full env_ok disk_empty "dag" [] none (2 ^ 64 - 7) false).disk.files
      (dag_path naming_full "dag" []) = some [10] ∧
    [10].length ≠ 2 ^ 64 - 7 + 8 := by
  decide

/-- C3, amended. For every `file_size` with `file_size + 8 ≤ 2 ^ 63` (so that
`file_size + 8 - 1` is a non-negative `long int`): when `force_create` is true
or no existing file can be opened, and the create, seek, write and flush all
succeed, `ccmash_io_prepare` returns `CCMASH_IO_MEMO_MISMATCH` with
`*output_file` set to the new stream; the file left on disk is `file_size + 7`
zero bytes followed by a newline, so its length is exactly `file_size + 8` and
its leading 8 bytes are not the magic constant; the outcome is neither
`CCMASH_IO_MEMO_MATCH` nor `CCMASH_IO_MEMO_SIZE_MISMATCH`. -/
theorem C3_fresh (n : Naming) (e : Env) (d : Disk) (dirname : String)
    (seedhash : List Nat) (out : Option FILE) (file_size : Nat) (force_create : Bool)
    (hsz : file_size + 8 ≤ 2 ^ 63)
    (hdir : e.ccmash_mkdir dirname = true) (hmem : e.malloc_ok = true)
    (hneed : force_create = true ∨
      e.fopen_ok (dag_path n dirname seedhash) Mode.rb_plus = false ∨
      d.files (dag_path n dirname seedhash) = none)
    (hcreate : e.fopen_ok (dag_path n dirname seedhash) Mode.wb_plus = true)
    (hseek : e.fseek_ok = true) (hputc : e.fputc_ok = true) (hflush : e.fflush_ok = true) :
    (ccmash_io_prepare n e d dirname seedhash out file_size force_create).ret
      = CCMASH_IO_MEMO_MISMATCH ∧
    (ccmash_io_prepare n e d dirname seedhash out file_size force_create).output_file
      = some ⟨dag_path n dirname seedhash, Mode.wb_plus, file_size + 8, true⟩ ∧
    (ccmash_io_prepare n e d dirname seedhash out file_size force_create).disk.files
      (dag_path n dirname seedhash) = some (List.replicate (file_size + 7) 0 ++ [10]) ∧
    (List.replicate (file_size + 7) 0 ++ [10]).length = file_size + 8 ∧
    le64 (List.replicate (file_size + 7) 0 ++ [10]) 0 ≠ CCMASH_DAG_MAGIC_NUM ∧
    (ccmash_io_prepare n e d dirname seedhash out file_size force_create).ret
      ≠ CCMASH_IO_MEMO_MATCH ∧
    (ccmash_io_prepare n e d dirname seedhash out file_size force_create).ret
      ≠ CCMASH_IO_MEMO_SIZE_MISMATCH := by
  have hoff := fresh_offset_small file_size hsz
  have h0 : 0 ≤ fresh_offset file_size := by
    rw [hoff]
    exact Int.ofNat_nonneg _
  have hnat : (fresh_offset file_size).toNat = file_size + 7 := by
    rw [hoff]
    exact Int.toNat_ofNat _
  rw [prepare_falls_through n e d dirname seedhash out file_size force_create hdir hmem hneed,
    prepare_create_fresh e d (dag_path n dirname seedhash) out file_size hcreate hseek h0
      hputc hflush, hnat]
  refine ⟨rfl, rfl, store_files_self _ _ _, ?_, ?_, rc_mismatch_ne_match, rc_mismatch_ne_size⟩
  · rw [List.length_append, List.length_replicate]
    rfl
  · exact le64_fresh_ne_magic _ (fresh_getD_zero _)

/-- C3 (amended) evaluated with `force_create` over a reusable DAG file, for
content size 3. -/
theorem C3_fresh_witness :
    (ccmash_io_prepare naming_full env_ok (disk_with (magic_file 3)) "dag" [] none 3 true).ret
      = CCMASH_IO_MEMO_MISMATCH :=
  (C3_fresh naming_full env_ok (disk_with (magic_file 3)) "dag" [] none 3 true
    (by decide) rfl rfl (Or.inl rfl) rfl rfl rfl rfl).1

/-- C4. Round trip: when a call of `ccmash_io_prepare` for size `S` freshly
initialises the file (returns `CCMASH_IO_MEMO_MISMATCH`) and the caller then
writes the magic constant at offset 0 followed by `S` dataset bytes, a later
non-forced call with the same directory, seed hash and size `S`, in which the
directory, the path name, the open, the size query and the read succeed,
returns `CCMASH_IO_MEMO_MATCH`. -/
theorem C4_round_trip (n : Naming) (e1 e2 : Env) (d : Disk) (dirname : String)
    (seedhash : List Nat) (out1 out2 : Option FILE) (S : Nat) (force_create : Bool)
    (dataset : List Nat)
    (hS : S < 2 ^ 64)
    (h1 : (ccmash_io_prepare n e1 d dirname seedhash out1 S force_create).ret
      = CCMASH_IO_MEMO_MISMATCH)
    (hdata : dataset.length = S)
    (hdir : e2.ccmash_mkdir dirname = true) (hmem : e2.malloc_ok = true)
    (hopen : e2.fopen_ok (dag_path n dirname seedhash) Mode.rb_plus = true)
    (hstat : e2.fstat_ok = true) (hread : e2.fread_ok = true) :
    (ccmash_io_prepare n e2
      (write_magic_and_dataset (ccmash_io_prepare n e1 d dirname seedhash out1 S force_create)
        dataset)
      dirname seedhash out2 S false).ret = CCMASH_IO_MEMO_MATCH := by
  rcases prepare_outcomes n e1 d dirname seedhash out1 S force_create with
    h | h | ⟨h0, heq⟩ | ⟨-, -, heq⟩
  · rw [h.1] at h1
    exact absurd h1 rc_fail_ne_mismatch
  · rw [h.1] at h1
    exact absurd h1 rc_mismatch_ne_size.symm
  · rw [heq]
    have hnat := fresh_offset_toNat S h0
    have hdrop : (List.replicate (fresh_offset S).toNat 0 ++ [10]).drop (8 + dataset.length)
        = [] := by
      apply List.drop_eq_nil_of_le
      rw [List.length_append, List.length_replicate, hnat, hdata, List.length_singleton]
      omega
    have hfile : (write_magic_and_dataset
        ⟨CCMASH_IO_MEMO_MISMATCH,
          some ⟨dag_path n dirname seedhash, Mode.wb_plus, (fresh_offset S).toNat + 1, true⟩,
          ({ d.store (dag_path n dirname seedhash) [] with nopen := d.nopen + 1 }).store
            (dag_path n dirname seedhash) (List.replicate (fresh_offset S).toNat 0 ++ [10]),
          none⟩ dataset).files (dag_path n dirname seedhash)
        = some (u64_bytes CCMASH_DAG_MAGIC_NUM ++ dataset) := by
      unfold write_magic_and_dataset
      dsimp only
      rw [store_files_self, store_files_self, Option.getD_some, hdrop, List.append_nil]
    rw [prepare_existing n e2 _ dirname seedhash out2 S _ hdir hmem hopen hfile hstat]
    have hlen : (u64_bytes CCMASH_DAG_MAGIC_NUM ++ dataset).length = 8 + S := by
      rw [List.length_append, hdata]
      rfl
    have hsize : S = u64_sub ((u64_bytes CCMASH_DAG_MAGIC_NUM ++ dataset).length % U64_MOD)
        CCMASH_DAG_MAGIC_NUM_SIZE := by
      rw [hlen]
      unfold u64_sub U64_MOD CCMASH_DAG_MAGIC_NUM_SIZE
      omega
    rw [if_pos hsize, if_pos ⟨hread, by rw [hlen]; omega⟩, if_pos (le64_magic_append dataset)]
  · rw [heq] at h1
    exact absurd h1 rc_mismatch_ne_match.symm

/-- C4 evaluated for content size 3: fresh initialisation, the build step of
the caller, then a second call. -/
theorem C4_round_trip_witness :
    (ccmash_io_prepare naming_full env_ok
      (write_magic_and_dataset
        (ccmash_io_prepare naming_full env_ok disk_empty "dag" [] none 3 false) [7, 7, 7])
      "dag" [] none 3 false).ret = CCMASH_IO_MEMO_MATCH :=
  C4_round_trip naming_full env_ok env_ok disk_empty "dag" [] none none 3 false [7, 7, 7]
    (by decide) (by decide) rfl rfl rfl rfl rfl rfl

/-- C5. After a call of `ccmash_io_prepare` that freshly initialised the file
(returned `CCMASH_IO_MEMO_MISMATCH`), as long as the magic field of the file is
as that call left it (the caller has not written the magic constant; bytes
beyond the first 8 may have changed, as after an aborted build), no later
non-forced call with the same directory, seed hash and size returns
`CCMASH_IO_MEMO_MATCH`, whatever the environment of that later call. -/
theorem C5_aborted_build (n : Naming) (e1 e2 : Env) (d d2 : Disk) (dirname : String)
    (seedhash : List Nat) (out1 out2 : Option FILE) (S : Nat) (force_create : Bool)
    (h1 : (ccmash_io_prepare n e1 d dirname seedhash out1 S force_create).ret
      = CCMASH_IO_MEMO_MISMATCH)
    (hkeep : ∀ i, i < 8 →
      ((d2.files (dag_path n dirname seedhash)).getD []).getD i 0
        = (((ccmash_io_prepare n e1 d dirname seedhash out1 S force_create).disk.files
            (dag_path n dirname seedhash)).getD []).getD i 0) :
    (ccmash_io_prepare n e2 d2 dirname seedhash out2 S false).ret ≠ CCMASH_IO_MEMO_MATCH := by
  have hbyte : ((d2.files (dag_path n dirname seedhash)).getD []).getD 0 0 = 0 ∨
      ((d2.files (dag_path n dirname seedhash)).getD []).getD 0 0 = 10 := by
    rw [hkeep 0 (by decide)]
    rcases prepare_outcomes n e1 d dirname seedhash out1 S force_create with
      h | h | ⟨-, heq⟩ | ⟨-, -, heq⟩
    · rw [h.1] at h1
      exact absurd h1 rc_fail_ne_mismatch
    · rw [h.1] at h1
      exact absurd h1 rc_mismatch_ne_size.symm
    · rw [heq]
      dsimp only
      rw [store_files_self, Option.getD_some]
      exact fresh_getD_zero _
    · rw [heq] at h1
      exact absurd h1 rc_mismatch_ne_match.symm
  rcases prepare_outcomes n e2 d2 dirname seedhash out2 S false with
    h | h | ⟨-, heq⟩ | ⟨-, ⟨c, hfile, -, hmagic, -⟩, -⟩
  · rw [h.1]
    exact rc_fail_ne_match
  · rw [h.1]
    exact rc_size_ne_match
  · rw [heq]
    exact rc_mismatch_ne_match
  · rw [hfile, Option.getD_some] at hbyte
    exact absurd hmagic (le64_fresh_ne_magic c hbyte)

/-- C5 evaluated for content size 3: fresh initialisation, then a second call on
the file as it was left. -/
theorem C5_aborted_build_witness :
    (ccmash_io_prepare naming_full env_ok
      (ccmash_io_prepare naming_full env_ok disk_empty "dag" [] none 3 false).disk
      "dag" [] none 3 false).ret ≠ CCMASH_IO_MEMO_MATCH :=
  C5_aborted_build naming_full env_ok env_ok disk_empty
    (ccmash_io_prepare naming_full env_ok disk_empty "dag" [] none 3 false).disk
    "dag" [] none none 3 false (by decide) (fun _ _ => rfl)

/-- C6 as stated fails: on a DAG file written for content size 3 and queried
with size 4 the outcome is `CCMASH_IO_MEMO_SIZE_MISMATCH`, which is not the
failure outcome, and `*output_file` is not set. -/
theorem C6_counterexample :
    (ccmash_io_prepare naming_full env_ok (disk_with (magic_file 3)) "dag" [] none 4 false).ret
      = CCMASH_IO_MEMO_SIZE_MISMATCH ∧
    (ccmash_io_prepare naming_full env_ok (disk_with (magic_file 3)) "dag" [] none 4 false).ret
      ≠ CCMASH_IO_FAIL ∧
    (ccmash_io_prepare naming_full env_ok (disk_with (magic_file 3)) "dag" [] none 4
      false).output_file = none := by
  decide

/-- C6, amended. For every call of `ccmash_io_prepare` whose outcome is not
`CCMASH_IO_FAIL`: on `CCMASH_IO_MEMO_MATCH` and on `CCMASH_IO_MEMO_MISMATCH`,
`*output_file` is set to an open stream on the DAG file, opened in an update
mode (readable and writable); on `CCMASH_IO_MEMO_SIZE_MISMATCH` the stream has
been closed again and `*output_file` is left as it was. -/
theorem C6_handle (n : Naming) (e : Env) (d : Disk) (dirname : String)
    (seedhash : List Nat) (out : Option FILE) (file_size : Nat) (force_create : Bool)
    (h : (ccmash_io_prepare n e d dirname seedhash out file_size force_create).ret
      ≠ CCMASH_IO_FAIL) :
    (((ccmash_io_prepare n e d dirname seedhash out file_size force_create).ret
          = CCMASH_IO_MEMO_MATCH ∨
        (ccmash_io_prepare n e d dirname seedhash out file_size force_create).ret
          = CCMASH_IO_MEMO_MISMATCH) ∧
      (ccmash_io_prepare n e d dirname seedhash out file_size force_create).disk.nopen
        = d.nopen + 1 ∧
      ∃ f, (ccmash_io_prepare n e d dirname seedhash out file_size force_create).output_file
          = some f ∧
        f.path = dag_path n dirname seedhash ∧ f.is_open = true ∧ f.mode.writable = true) ∨
    ((ccmash_io_prepare n e d dirname seedhash out file_size force_create).ret
        = CCMASH_IO_MEMO_SIZE_MISMATCH ∧
      (ccmash_io_prepare n e d dirname seedhash out file_size force_create).disk.nopen
        = d.nopen ∧
      (ccmash_io_prepare n e d dirname seedhash out file_size force_create).output_file
        = out) := by
  rcases prepare_outcomes n e d dirname seedhash out file_size force_create with
    h1 | h1 | ⟨-, heq⟩ | ⟨-, -, heq⟩
  · exact absurd h1.1 h
  · refine Or.inr ⟨h1.1, ?_, h1.2.1⟩
    rw [h1.2.2.1]
    show d.nopen + 1 - 1 = d.nopen
    omega
  · rw [heq]
    exact Or.inl ⟨Or.inr rfl, rfl, _, rfl, rfl, rfl, rfl⟩
  · rw [heq]
    exact Or.inl ⟨Or.inl rfl, rfl, _, rfl, rfl, rfl, rfl⟩

/-- C6 (amended) evaluated on a reusable DAG file of content size 3. -/
theorem C6_handle_witness :
    (ccmash_io_prepare naming_full env_ok (disk_with (magic_file 3)) "dag" [] none 3
      false).output_file = some ⟨"dag/full", Mode.rb_plus, 8, true⟩ ∧
    ((((ccmash_io_prepare naming_full env_ok (disk_with (magic_file 3)) "dag" [] none 3
            false).ret = CCMASH_IO_MEMO_MATCH ∨
          (ccmash_io_prepare naming_full env_ok (disk_with (magic_file 3)) "dag" [] none 3
            false).ret = CCMASH_IO_MEMO_MISMATCH) ∧
        (ccmash_io_prepare naming_full env_ok (disk_with (magic_file 3)) "dag" [] none 3
          false).disk.nopen = (disk_with (magic_file 3)).nopen + 1 ∧
        ∃ f, (ccmash_io_prepare naming_full env_ok (disk_with (magic_file 3)) "dag" [] none 3
            false).output_file = some f ∧
          f.path = dag_path naming_full "dag" [] ∧ f.is_open = true ∧
          f.mode.writable = true) ∨
      ((ccmash_io_prepare naming_full env_ok (disk_with (magic_file 3)) "dag" [] none 3
          false).ret = CCMASH_IO_MEMO_SIZE_MISMATCH ∧
        (ccmash_io_prepare naming_full env_ok (disk_with (magic_file 3)) "dag" [] none 3
          false).disk.nopen = (disk_with (magic_file 3)).nopen ∧
        (ccmash_io_prepare naming_full env_ok (disk_with (magic_file 3)) "dag" [] none 3
          false).output_file = none)) :=
  ⟨by decide,
    C6_handle naming_full env_ok (disk_with (magic_file 3)) "dag" [] none 3 false (by decide)⟩

/-- C7 as stated fails: when the magic number cannot be read from an existing
file of the expected size, the call logs the read failure and returns
`CCMASH_IO_MEMO_SIZE_MISMATCH`, not `CCMASH_IO_FAIL`. -/
theorem C7_counterexample :
    (ccmash_io_prepare naming_full env_no_read (disk_with (magic_file 3)) "dag" [] none 3
      false).critical = some Critical.could_not_read ∧
    (ccmash_io_prepare naming_full env_no_read (disk_with (magic_file 3)) "dag" [] none 3
      false).ret = CCMASH_IO_MEMO_SIZE_MISMATCH ∧
    (ccmash_io_prepare naming_full env_no_read (disk_with (magic_file 3)) "dag" [] none 3
      false).ret ≠ CCMASH_IO_FAIL := by
  decide

/-- On the creation path, a refused `"wb+"` open ends the call with
`CCMASH_IO_FAIL` (lines 88 to 92). -/
theorem prepare_create_no_create (e : Env) (d : Disk) (tmpfile : String)
    (out : Option FILE) (file_size : Nat)
    (hcreate : e.fopen_ok tmpfile Mode.wb_plus = false) :
    (prepare_create e d tmpfile out file_size).ret = CCMASH_IO_FAIL ∧
    (prepare_create e d tmpfile out file_size).output_file = out := by
  have hc : ¬ e.fopen_ok tmpfile Mode.wb_plus = true := by
    rw [hcreate]
    decide
  unfold prepare_create ccmash_fopen
  rw [if_neg hc]
  exact ⟨rfl, rfl⟩

/-- On the creation path, a failed seek ends the call with `CCMASH_IO_FAIL`
(lines 94 to 98). -/
theorem prepare_create_no_seek (e : Env) (d : Disk) (tmpfile : String)
    (out : Option FILE) (file_size : Nat)
    (hcreate : e.fopen_ok tmpfile Mode.wb_plus = true)
    (hseek : e.fseek_ok = false ∨ fresh_offset file_size < 0) :
    (prepare_create e d tmpfile out file_size).ret = CCMASH_IO_FAIL ∧
    (prepare_create e d tmpfile out file_size).output_file = out := by
  have hs : ¬ (e.fseek_ok = true ∧ 0 ≤ fresh_offset file_size) := by
    rintro ⟨h1, h2⟩
    rcases hseek with h | h
    · rw [h] at h1
      exact absurd h1 (by decide)
    · exact absurd h2 (not_le.mpr h)
  unfold fresh_offset at hs
  unfold prepare_create ccmash_fopen
  rw [if_pos hcreate]
  dsimp only
  unfold fseek_set
  rw [if_neg hs]
  exact ⟨rfl, rfl⟩

/-- On the creation path, a failed write ends the call with `CCMASH_IO_FAIL`
(lines 99 to 103). -/
theorem prepare_create_no_putc (e : Env) (d : Disk) (tmpfile : String)
    (out : Option FILE) (file_size : Nat)
    (hcreate : e.fopen_ok tmpfile Mode.wb_plus = true)
    (hseek : e.fseek_ok = true) (hoff : 0 ≤ fresh_offset file_size)
    (hputc : e.fputc_ok = false) :
    (prepare_create e d tmpfile out file_size).ret = CCMASH_IO_FAIL ∧
    (prepare_create e d tmpfile out file_size).output_file = out := by
  have hs : e.fseek_ok = true ∧ 0 ≤ fresh_offset file_size := ⟨hseek, hoff⟩
  have hp : ¬ e.fputc_ok = true := by
    rw [hputc]
    decide
  unfold fresh_offset at hs
  unfold prepare_create ccmash_fopen
  rw [if_pos hcreate]
  dsimp only
  unfold fseek_set
  rw [if_pos hs]
  dsimp only
  unfold fputc
  rw [if_neg hp]
  exact ⟨rfl, rfl⟩

/-- On the creation path, a failed flush ends the call with `CCMASH_IO_FAIL`
(lines 104 to 108). -/
theorem prepare_create_no_flush (e : Env) (d : Disk) (tmpfile : String)
    (out : Option FILE) (file_size : Nat)
    (hcreate : e.fopen_ok tmpfile Mode.wb_plus = true)
    (hseek : e.fseek_ok = true) (hoff : 0 ≤ fresh_offset file_size)
    (hputc : e.fputc_ok = true) (hflush : e.fflush_ok = false) :
    (prepare_create e d tmpfile out file_size).ret = CCMASH_IO_FAIL ∧
    (prepare_create e d tmpfile out file_size).output_file = out := by
  have hs : e.fseek_ok = true ∧ 0 ≤ fresh_offset file_size := ⟨hseek, hoff⟩
  have hf : ¬ e.fflush_ok = true := by
    rw [hflush]
    decide
  unfold fresh_offset at hs
  unfold prepare_create ccmash_fopen
  rw [if_pos hcreate]
  dsimp only
  unfold fseek_set
  rw [if_pos hs]
  dsimp only
  unfold fputc
  rw [if_pos hputc]
  dsimp only
  unfold fflush
  rw [if_neg hf]
  exact ⟨rfl, rfl⟩

/-- C7, amended. Each of these I/O failures makes `ccmash_io_prepare` return
`CCMASH_IO_FAIL` and leave `*output_file` as it was: `ccmash_mkdir` fails; the
size of the opened existing file cannot be queried; on the creation path
(forced, or no existing file could be opened) the new file cannot be created,
or the seek fails (refused, or the offset is negative), or the write fails, or
the flush fails. When the magic number cannot be read from the opened existing
file of the expected size (the read is refused, or fewer than 8 bytes are
there), the call returns `CCMASH_IO_MEMO_SIZE_MISMATCH` instead, and likewise
leaves `*output_file` as it was. -/
theorem C7_failures (n : Naming) (e : Env) (d : Disk) (dirname : String)
    (seedhash : List Nat) (out : Option FILE) (file_size : Nat) (force_create : Bool) :
    (e.ccmash_mkdir dirname = false →
      (ccmash_io_prepare n e d dirname seedhash out file_size force_create).ret
          = CCMASH_IO_FAIL ∧
        (ccmash_io_prepare n e d dirname seedhash out file_size force_create).output_file
          = out) ∧
    (e.ccmash_mkdir dirname = true → e.malloc_ok = true →
      (force_create = false →
        e.fopen_ok (dag_path n dirname seedhash) Mode.rb_plus = true →
        ∀ c, d.files (dag_path n dirname seedhash) = some c →
          (e.fstat_ok = false →
            (ccmash_io_prepare n e d dirname seedhash out file_size force_create).ret
                = CCMASH_IO_FAIL ∧
              (ccmash_io_prepare n e d dirname seedhash out file_size
                force_create).output_file = out) ∧
          (e.fstat_ok = true →
            file_size = u64_sub (c.length % U64_MOD) CCMASH_DAG_MAGIC_NUM_SIZE →
            (e.fread_ok = false ∨ c.length < 8) →
            (ccmash_io_prepare n e d dirname seedhash out file_size force_create).ret
                = CCMASH_IO_MEMO_SIZE_MISMATCH ∧
              (ccmash_io_prepare n e d dirname seedhash out file_size
                force_create).output_file = out)) ∧
      ((force_create = true ∨
          e.fopen_ok (dag_path n dirname seedhash) Mode.rb_plus = false ∨
          d.files (dag_path n dirname seedhash) = none) →
        (e.fopen_ok (dag_path n dirname seedhash) Mode.wb_plus = false →
          (ccmash_io_prepare n e d dirname seedhash out file_size force_create).ret
              = CCMASH_IO_FAIL ∧
            (ccmash_io_prepare n e d dirname seedhash out file_size
              force_create).output_file = out) ∧
        (e.fopen_ok (dag_path n dirname seedhash) Mode.wb_plus = true →
          (e.fseek_ok = false ∨ fresh_offset file_size < 0) →
          (ccmash_io_prepare n e d dirname seedhash out file_size force_create).ret
              = CCMASH_IO_FAIL ∧
            (ccmash_io_prepare n e d dirname seedhash out file_size
              force_create).output_file = out) ∧
        (e.fopen_ok (dag_path n dirname seedhash) Mode.wb_plus = true →
          e.fseek_ok = true → 0 ≤ fresh_offset file_size → e.fputc_ok = false →
          (ccmash_io_prepare n e d dirname seedhash out file_size force_create).ret
              = CCMASH_IO_FAIL ∧
            (ccmash_io_prepare n e d dirname seedhash out file_size
              force_create).output_file = out) ∧
        (e.fopen_ok (dag_path n dirname seedhash) Mode.wb_plus = true →
          e.fseek_ok = true → 0 ≤ fresh_offset file_size → e.fputc_ok = true →
          e.fflush_ok = false →
          (ccmash_io_prepare n e d dirname seedhash out file_size force_create).ret
              = CCMASH_IO_FAIL ∧
            (ccmash_io_prepare n e d dirname seedhash out file_size
              force_create).output_file = out))) := by
  refine ⟨fun hdir => ?_, fun hdir hmem => ⟨fun hforce hopen c hfile => ⟨fun hstat => ?_,
    fun hstat hsize hread => ?_⟩, fun hneed => ?_⟩⟩
  · rw [prepare_mkdir_fails n e d dirname seedhash out file_size force_create hdir]
    exact ⟨rfl, rfl⟩
  · subst hforce
    rw [prepare_stat_fails n e d dirname seedhash out file_size c hdir hmem hopen hfile hstat]
    exact ⟨rfl, rfl⟩
  · subst hforce
    have hr : ¬ (e.fread_ok = true ∧ 8 ≤ c.length) := by
      rintro ⟨h1, h2⟩
      rcases hread with h | h
      · rw [h] at h1
        exact absurd h1 (by decide)
      · exact absurd h2 (not_le.mpr h)
    rw [prepare_existing n e d dirname seedhash out file_size c hdir hmem hopen hfile hstat,
      if_pos hsize, if_neg hr]
    exact ⟨rfl, rfl⟩
  · rw [prepare_falls_through n e d dirname seedhash out file_size force_create hdir hmem
      hneed]
    exact ⟨fun hcreate => prepare_create_no_create e d _ out file_size hcreate,
      fun hcreate hseek => prepare_create_no_seek e d _ out file_size hcreate hseek,
      fun hcreate hseek hoff hputc =>
        prepare_create_no_putc e d _ out file_size hcreate hseek hoff hputc,
      fun hcreate hseek hoff hputc hflush =>
        prepare_create_no_flush e d _ out file_size hcreate hseek hoff hputc hflush⟩

/-- C7 (amended) evaluated once for each kind of failure: the directory, the
size query, the read of the magic number, the creation, the seek, the write and
the flush. -/
theorem C7_failures_witness :
    (ccmash_io_prepare naming_full env_no_dir disk_empty "dag" [] none 3 false).ret
      = CCMASH_IO_FAIL ∧
    (ccmash_io_prepare naming_full env_no_stat (disk_with (magic_file 3)) "dag" [] none 3
      false).ret = CCMASH_IO_FAIL ∧
    (ccmash_io_prepare naming_full env_no_read (disk_with (magic_file 3)) "dag" [] none 3
      false).ret = CCMASH_IO_MEMO_SIZE_MISMATCH ∧
    (ccmash_io_prepare naming_full env_no_create disk_empty "dag" [] none 3 false).ret
      = CCMASH_IO_FAIL ∧
    (ccmash_io_prepare naming_full env_no_seek disk_empty "dag" [] none 3 false).ret
      = CCMASH_IO_FAIL ∧
    (ccmash_io_prepare naming_full env_no_putc disk_empty "dag" [] none 3 false).ret
      = CCMASH_IO_FAIL ∧
    (ccmash_io_prepare naming_full env_no_flush disk_empty "dag" [] none 3 false).ret
      = CCMASH_IO_FAIL :=
  ⟨((C7_failures naming_full env_no_dir disk_empty "dag" [] none 3 false).1 rfl).1,
    ((((C7_failures naming_full env_no_stat (disk_with (magic_file 3)) "dag" [] none 3
      false).2 rfl rfl).1 rfl rfl (magic_file 3)
      (by rw [dag_path_full, disk_with_files])).1 rfl).1,
    ((((C7_failures naming_full env_no_read (disk_with (magic_file 3)) "dag" [] none 3
      false).2 rfl rfl).1 rfl rfl (magic_file 3)
      (by rw [dag_path_full, disk_with_files])).2 rfl (by decide) (Or.inl rfl)).1,
    ((((C7_failures naming_full env_no_create disk_empty "dag" [] none 3 false).2 rfl rfl).2
      (Or.inr (Or.inr rfl))).1 rfl).1,
    ((((C7_failures naming_full env_no_seek disk_empty "dag" [] none 3 false).2 rfl rfl).2
      (Or.inr (Or.inr rfl))).2.1 rfl (Or.inl rfl)).1,
    ((((C7_failures naming_full env_no_putc disk_empty "dag" [] none 3 false).2 rfl rfl).2
      (Or.inr (Or.inr rfl))).2.2.1 rfl rfl (by decide) rfl).1,
    ((((C7_failures naming_full env_no_flush disk_empty "dag" [] none 3 false).2 rfl rfl).2
      (Or.inr (Or.inr rfl))).2.2.2 rfl rfl (by decide) rfl rfl).1⟩

/-- C9 as stated fails: the stream handed out after a fresh initialisation for
content size 1 stands at offset 9, the end of the file, not at offset 8. -/
theorem C9_counterexample :
    (ccmash_io_prepare naming_full env_ok disk_empty "dag" [] none 1 false).ret
      = CCMASH_IO_MEMO_MISMATCH ∧
    (ccmash_io_prepare naming_full env_ok disk_empty "dag" [] none 1 false).output_file
      = some ⟨"dag/full", Mode.wb_plus, 9, true⟩ ∧
    (9 : Nat) ≠ 8 := by
  decide

/-- C9, amended. When `ccmash_io_prepare` hands out a stream: on the reuse
outcome its position is byte offset 8, right after the magic-number field; on
the freshly-initialised outcome its position is the end of the new file, byte
offset `(file_size + 7) mod 2 ^ 64 + 1`. -/
theorem C9_position (n : Naming) (e : Env) (d : Disk) (dirname : String)
    (seedhash : List Nat) (out : Option FILE) (file_size : Nat) (force_create : Bool)
    (f : FILE)
    (hret : (ccmash_io_prepare n e d dirname seedhash out file_size force_create).ret
        = CCMASH_IO_MEMO_MATCH ∨
      (ccmash_io_prepare n e d dirname seedhash out file_size force_create).ret
        = CCMASH_IO_MEMO_MISMATCH)
    (hf : (ccmash_io_prepare n e d dirname seedhash out file_size force_create).output_file
      = some f) :
    ((ccmash_io_prepare n e d dirname seedhash out file_size force_create).ret
        = CCMASH_IO_MEMO_MATCH ∧ f.pos = 8) ∨
    ((ccmash_io_prepare n e d dirname seedhash out file_size force_create).ret
        = CCMASH_IO_MEMO_MISMATCH ∧
      f.pos = (file_size + 7) % 2 ^ 64 + 1 ∧
      ∃ c, (ccmash_io_prepare n e d dirname seedhash out file_size force_create).disk.files
          (dag_path n dirname seedhash) = some c ∧ f.pos = c.length) := by
  rcases prepare_outcomes n e d dirname seedhash out file_size force_create with
    h1 | h1 | ⟨h0, heq⟩ | ⟨-, -, heq⟩
  · rcases hret with h | h
    · rw [h1.1] at h
      exact absurd h rc_fail_ne_match
    · rw [h1.1] at h
      exact absurd h rc_fail_ne_mismatch
  · rcases hret with h | h
    · rw [h1.1] at h
      exact absurd h rc_size_ne_match
    · rw [h1.1] at h
      exact absurd h rc_mismatch_ne_size.symm
  · rw [heq] at hf ⊢
    have hfe : f = ⟨dag_path n dirname seedhash, Mode.wb_plus,
        (fresh_offset file_size).toNat + 1, true⟩ := (Option.some.inj hf).symm
    have hnat := fresh_offset_toNat file_size h0
    rw [hfe]
    refine Or.inr ⟨rfl, ?_, _, store_files_self _ _ _, ?_⟩
    · show (fresh_offset file_size).toNat + 1 = (file_size + 7) % 2 ^ 64 + 1
      rw [hnat]
    · show (fresh_offset file_size).toNat + 1 = _
      rw [List.length_append, List.length_replicate, List.length_singleton]
  · rw [heq] at hf ⊢
    have hfe : f = ⟨dag_path n dirname seedhash, Mode.rb_plus, 8, true⟩ :=
      (Option.some.inj hf).symm
    rw [hfe]
    exact Or.inl ⟨rfl, rfl⟩

/-- C9 (amended) evaluated on a reusable DAG file of content size 3: the stream
stands at offset 8. -/
theorem C9_position_witness :
    ((ccmash_io_prepare naming_full env_ok (disk_with (magic_file 3)) "dag" [] none 3 false).ret
        = CCMASH_IO_MEMO_MATCH ∧ (FILE.mk "dag/full" Mode.rb_plus 8 true).pos = 8) ∨
    ((ccmash_io_prepare naming_full env_ok (disk_with (magic_file 3)) "dag" [] none 3 false).ret
        = CCMASH_IO_MEMO_MISMATCH ∧
      (FILE.mk "dag/full" Mode.rb_plus 8 true).pos = (3 + 7) % 2 ^ 64 + 1 ∧
      ∃ c, (ccmash_io_prepare naming_full env_ok (disk_with (magic_file 3)) "dag" [] none 3
          false).disk.files (dag_path naming_full "dag" []) = some c ∧
        (FILE.mk "dag/full" Mode.rb_plus 8 true).pos = c.length) :=
  C9_position naming_full env_ok (disk_with (magic_file 3)) "dag" [] none 3 false
    ⟨"dag/full", Mode.rb_plus, 8, true⟩ (Or.inl (by decide)) (by decide)

/-- C10 on the code: `CCMASH_CACHE_BYTES_INIT` is `2 ^ 30`, not the `2 ^ 24` its
comment documents, and it is not smaller than `CCMASH_DATASET_BYTES_INIT`; the
three other size constants equal the powers of two their comments document. -/
theorem C10_size_constants :
    CCMASH_CACHE_BYTES_INIT = 2 ^ 30 ∧
    CCMASH_CACHE_BYTES_INIT ≠ 2 ^ CACHE_BYTES_INIT_comment_exp ∧
    ¬ CCMASH_CACHE_BYTES_INIT < CCMASH_DATASET_BYTES_INIT ∧
    CCMASH_CACHE_BYTES_GROWTH = 2 ^ CACHE_BYTES_GROWTH_comment_exp ∧
    CCMASH_DATASET_BYTES_INIT = 2 ^ DATASET_BYTES_INIT_comment_exp ∧
    CCMASH_DATASET_BYTES_GROWTH = 2 ^ DATASET_BYTES_GROWTH_comment_exp := by
  decide

end Ccmash
